import Mathlib

/-!
Verification of the preload bridge layer of `packages/suite-desktop/src/preload/index.ts`.

The development shallowly embeds the bridge construction logic: the ipc event
registry used by `addIpcEventListener` (electron `ipcRenderer.on`/`.off`), the
cached window-maximized flag, the lazily constructed extension handler with its
awaited `getHomePath` round trip, the deep-link intake/reset protocol built on a
sentinel cookie and a forced reload, the network-interface enumeration, and a
classification of every operation of the desktop bridge by how it crosses the
process boundary (awaited `ipcRenderer.invoke`, one-way `ipcRenderer.send`, or a
synchronous local read).
-/

namespace Preload

/-! ### IPC event registry

`ipcRenderer.on(eventName, handler)` appends a registration for the channel;
`ipcRenderer.off(eventName, handler)` (Node `EventEmitter.removeListener`)
removes at most one registration: the most recently added one whose channel and
listener both match. Handlers are modelled by their identity (a `Nat`), since
the preload script only ever stores and compares the function references. -/

abbrev Handler := Nat

abbrev IpcRegistry := List (String × Handler)

def ipcOn (s : IpcRegistry) (eventName : String) (handler : Handler) : IpcRegistry :=
  s ++ [(eventName, handler)]

def ipcOff (s : IpcRegistry) (eventName : String) (handler : Handler) : IpcRegistry :=
  (s.reverse.erase (eventName, handler)).reverse

/-- `desktopBridge.addIpcEventListener` (index.ts lines 118-123): registers the
handler and returns a closure that removes that same registration. -/
def desktopAddIpcEventListener (eventName : String) (handler : Handler)
    (s : IpcRegistry) : IpcRegistry × (IpcRegistry → IpcRegistry) :=
  (ipcOn s eventName handler, fun s2 => ipcOff s2 eventName handler)

/-- `menuBridge.addIpcEventListener` (index.ts lines 207-219): registers the
handler and returns a closure that removes that same registration. -/
def menuAddIpcEventListener (eventName : String) (handler : Handler)
    (s : IpcRegistry) : IpcRegistry × (IpcRegistry → IpcRegistry) :=
  (ipcOn s eventName handler, fun s2 => ipcOff s2 eventName handler)

/-! ### Cached maximized flag

index.ts lines 100-104: `let isMaximized = false`, with
`ipcRenderer.on("maximize", () => (isMaximized = true))` and
`ipcRenderer.on("unmaximize", () => (isMaximized = false))`. An arriving host
event on any other channel has no registered mutator of the flag. -/

def stepMaximized (b : Bool) (eventName : String) : Bool :=
  if eventName = "maximize" then true
  else if eventName = "unmaximize" then false
  else b

/-- The value of the cached flag after a sequence of host-pushed events,
starting from the initial value `false`. -/
def maximizedAfter (events : List String) : Bool :=
  events.foldl stepMaximized false

def relevantMaximizeEvent (eventName : String) : Bool :=
  eventName == "maximize" || eventName == "unmaximize"

/-! ### Window commands

The window commands (index.ts lines 174-194) each perform a one-way
`ipcRenderer.send` on a fixed channel; none of them touches the cached
maximized flag, which only the two event handlers above mutate. -/

structure WindowState where
  isMaximized : Bool
  sentChannels : List String
deriving DecidableEq

/-- Receipt of a host-pushed event: the flag is updated by the registered
handlers, i.e. by `stepMaximized` on the channel name. -/
def onHostEvent (s : WindowState) (eventName : String) : WindowState :=
  { s with isMaximized := stepMaximized s.isMaximized eventName }

def minimizeWindowCmd (s : WindowState) : WindowState :=
  { s with sentChannels := s.sentChannels ++ ["minimizeWindow"] }

def maximizeWindowCmd (s : WindowState) : WindowState :=
  { s with sentChannels := s.sentChannels ++ ["maximizeWindow"] }

def unmaximizeWindowCmd (s : WindowState) : WindowState :=
  { s with sentChannels := s.sentChannels ++ ["unmaximizeWindow"] }

def handleTitleBarDoubleClickCmd (s : WindowState) : WindowState :=
  { s with sentChannels := s.sentChannels ++ ["titleBarDoubleClicked"] }

/-- `desktopBridge.isMaximized` (index.ts lines 177-179): a synchronous read of
the cached flag. -/
def isMaximizedRead (s : WindowState) : Bool :=
  s.isMaximized

/-! ### Lazily constructed extension handler

index.ts lines 106-115. The cached slot starts empty; `getExtensionHandler`
checks the slot, and when it is empty awaits `ipcRenderer.invoke("getHomePath")`
— a suspension point — before constructing `new ExtensionsHandler(dir)` and
filling the slot. The awaited call splits each invocation into a start phase
(the presence check, issuing the round trip) and a resume phase (running after
the host reply). `ctorId` numbers constructions so distinct instances are
distinguishable; `homePathRoundTrips` counts issued `getHomePath` invokes. -/

structure ExtensionsHandler where
  userExtensionsDir : String
  ctorId : Nat
deriving DecidableEq

structure ExtState where
  extensionHandler : Option ExtensionsHandler
  homePathRoundTrips : Nat
  constructions : Nat
deriving DecidableEq

def pathJoin (parts : List String) : String :=
  String.intercalate "/" parts

inductive StartResult where
  | done (h : ExtensionsHandler)
  | awaitingHomePath
deriving DecidableEq

/-- Start phase of `getExtensionHandler`: the `if (!extensionHandler)` presence
check; when the slot is empty the `getHomePath` round trip is issued and the
call suspends. -/
def getExtensionHandlerStart (s : ExtState) : StartResult × ExtState :=
  match s.extensionHandler with
  | some h => (StartResult.done h, s)
  | none =>
      (StartResult.awaitingHomePath,
       { s with homePathRoundTrips := s.homePathRoundTrips + 1 })

/-- Resume phase of `getExtensionHandler`, running once the awaited
`getHomePath` reply arrives: a rejection propagates and touches nothing; a
resolution constructs the handler and assigns the cached slot, with no second
presence check. -/
def getExtensionHandlerResume (s : ExtState) (reply : Except String String) :
    Except String ExtensionsHandler × ExtState :=
  match reply with
  | Except.error e => (Except.error e, s)
  | Except.ok homePath =>
      let handler : ExtensionsHandler :=
        { userExtensionsDir := pathJoin [homePath, ".lichtblick-suite", "extensions"]
          ctorId := s.constructions }
      (Except.ok handler,
       { s with extensionHandler := some handler
                constructions := s.constructions + 1 })

/-- One complete call of `getExtensionHandler` with no interleaved caller:
start, then, if suspended, resume with the host's reply. -/
def getExtensionHandlerCall (s : ExtState) (reply : Except String String) :
    Except String ExtensionsHandler × ExtState :=
  match getExtensionHandlerStart s with
  | (StartResult.done h, s1) => (Except.ok h, s1)
  | (StartResult.awaitingHomePath, s1) => getExtensionHandlerResume s1 reply

def initialExtState : ExtState :=
  { extensionHandler := none, homePathRoundTrips := 0, constructions := 0 }

/-- Two concurrent first-time callers A and B interleaved at the suspension
point: A runs its presence check, B runs its presence check, then A's
`getHomePath` reply arrives, then B's. Returns A's result, B's result and the
final state. -/
def raceTwoCalls (home : String) :
    Except String ExtensionsHandler × Except String ExtensionsHandler × ExtState :=
  let s1 := (getExtensionHandlerStart initialExtState).2
  let s2 := (getExtensionHandlerStart s1).2
  let ra := getExtensionHandlerResume s2 (Except.ok home)
  let rb := getExtensionHandlerResume ra.2 (Except.ok home)
  (ra.1, rb.1, rb.2)

/-! ### Deep-link intake / reset protocol

index.ts lines 30-36 and 136-147. At attach the preload script reads the
`fox.ignoreDeepLinks` session cookie, immediately clears it, and captures the
deep-link list: empty when the sentinel cookie was present, otherwise the list
decoded from the launch arguments (`?? []` when decoding yields nothing).
`getDeepLinks` is a read of the captured list; `resetDeepLinks` sets the
sentinel cookie to `true` and forces `window.location.reload()`, after which
the freshly attached preload script reads the sentinel. -/

/-- Modelled from the spec: `decodeRendererArg("deepLinks", window.process.argv)`
is defined in `packages/suite-desktop/src/common/rendererArgs.ts`, which is not
among the reviewed source files. The spec describes the launch-argument
deep-link encoding as "an ordered sequence of URL strings embedded in process
launch arguments, decoded once at attach time", possibly absent; the launch
arguments are therefore modelled as carrying that optional decoded list, and
the decoder as its projection. -/
structure LaunchArgs where
  deepLinksArg : Option (List String)

def decodeRendererArg (args : LaunchArgs) : Option (List String) :=
  args.deepLinksArg

structure PreloadInstance where
  deepLinks : List String
  cookieSentinelAfterAttach : Bool
deriving DecidableEq

/-- Process attach (index.ts lines 33-36): read the sentinel cookie, clear it,
capture the deep-link list once. -/
def attachPreload (cookieSentinel : Bool) (args : LaunchArgs) : PreloadInstance :=
  { deepLinks := if cookieSentinel then [] else (decodeRendererArg args).getD []
    cookieSentinelAfterAttach := false }

/-- `desktopBridge.getDeepLinks` (index.ts lines 136-138), as a call on the
instance returning the value and the (unchanged) instance. -/
def getDeepLinksCall (p : PreloadInstance) : List String × PreloadInstance :=
  (p.deepLinks, p)

/-- `desktopBridge.resetDeepLinks` (index.ts lines 139-147) sets the session
cookie `fox.ignoreDeepLinks=true`; this is the sentinel value the reload's
attach will read. -/
def resetDeepLinksSentinel : Bool :=
  true

/-- The reload forced by `resetDeepLinks`: the next attach reads the sentinel
cookie that `resetDeepLinks` just set. -/
def reloadAfterReset (args : LaunchArgs) : PreloadInstance :=
  attachPreload resetDeepLinksSentinel args

/-! ### Network interface enumeration

`ctx.getNetworkInterfaces` (index.ts lines 81-94): iterate the name-keyed map
from `os.networkInterfaces()`, `continue` on a name bound to `undefined`, and
push one record per address entry with `cidr: info.cidr ?? undefined` (Node
reports `cidr` as a string or `null`; the `?? undefined` normalizes `null` to
`undefined`, keeping the key present). -/

inductive NullableString where
  | strVal (s : String)
  | nullVal
deriving DecidableEq

/-- `x ?? undefined` on a string-or-null value: the key stays present, holding
either the string or `undefined` (`Option.none`). -/
def nullToUndefined : NullableString → Option String
  | NullableString.strVal s => some s
  | NullableString.nullVal => none

structure InterfaceInfo where
  family : String
  address : String
  netmask : String
  cidr : NullableString
deriving DecidableEq

structure NetworkInterface where
  name : String
  family : String
  address : String
  netmask : String
  cidr : Option String
deriving DecidableEq

/-- The records pushed for one name of the map: none when the name is bound to
`undefined`, otherwise one per address entry. -/
def interfaceEntries (name : String) (iface : Option (List InterfaceInfo)) :
    List NetworkInterface :=
  match iface with
  | none => []
  | some infos =>
      infos.map (fun info =>
        { name := name, family := info.family, address := info.address,
          netmask := info.netmask, cidr := nullToUndefined info.cidr })

def getNetworkInterfaces (ifaces : List (String × Option (List InterfaceInfo))) :
    List NetworkInterface :=
  ifaces.flatMap (fun p => interfaceEntries p.1 p.2)

/-! ### Call shape of the desktop bridge operations

Each operation of `desktopBridge` (index.ts lines 117-195) crosses the process
boundary in exactly one of three ways, read off its body: an `async` method
awaiting `ipcRenderer.invoke` (a promise that settles with the host round
trip), a one-way `ipcRenderer.send` on a fixed channel returning immediately,
or a synchronous local computation with no ipc call. The extension operations
are `async` and await `getExtensionHandler` and the handler method. -/

inductive DesktopOp where
  | addIpcEventListenerOp
  | setRepresentedFilename
  | updateNativeColorScheme
  | updateLanguage
  | getCLIFlags
  | getDeepLinksOp
  | resetDeepLinksOp
  | fetchLayouts
  | getExtensions
  | loadExtension
  | installExtension
  | uninstallExtension
  | handleTitleBarDoubleClick
  | isMaximizedOp
  | minimizeWindow
  | maximizeWindow
  | unmaximizeWindow
  | closeWindow
  | reloadWindow
deriving DecidableEq

inductive CallShape where
  | asyncAwait
  | oneWaySend (channel : String)
  | syncLocal
deriving DecidableEq

def desktopOpShape : DesktopOp → CallShape
  | DesktopOp.addIpcEventListenerOp => CallShape.syncLocal
  | DesktopOp.setRepresentedFilename => CallShape.asyncAwait
  | DesktopOp.updateNativeColorScheme => CallShape.asyncAwait
  | DesktopOp.updateLanguage => CallShape.asyncAwait
  | DesktopOp.getCLIFlags => CallShape.asyncAwait
  | DesktopOp.getDeepLinksOp => CallShape.syncLocal
  | DesktopOp.resetDeepLinksOp => CallShape.syncLocal
  | DesktopOp.fetchLayouts => CallShape.asyncAwait
  | DesktopOp.getExtensions => CallShape.asyncAwait
  | DesktopOp.loadExtension => CallShape.asyncAwait
  | DesktopOp.installExtension => CallShape.asyncAwait
  | DesktopOp.uninstallExtension => CallShape.asyncAwait
  | DesktopOp.handleTitleBarDoubleClick => CallShape.oneWaySend "titleBarDoubleClicked"
  | DesktopOp.isMaximizedOp => CallShape.syncLocal
  | DesktopOp.minimizeWindow => CallShape.oneWaySend "minimizeWindow"
  | DesktopOp.maximizeWindow => CallShape.oneWaySend "maximizeWindow"
  | DesktopOp.unmaximizeWindow => CallShape.oneWaySend "unmaximizeWindow"
  | DesktopOp.closeWindow => CallShape.oneWaySend "closeWindow"
  | DesktopOp.reloadWindow => CallShape.oneWaySend "reloadMainWindow"

inductive HostReply where
  | ok
  | fail
deriving DecidableEq

inductive CallOutcome where
  | promiseResolved
  | promiseRejected
  | immediateReturn
deriving DecidableEq

/-- What the caller observes from one operation, given how the host round trip
would go: an awaited invoke settles its promise with the round trip; a one-way
send and a local computation return immediately, with no rejection path. -/
def runDesktopOp (op : DesktopOp) (r : HostReply) : CallOutcome :=
  match desktopOpShape op with
  | CallShape.asyncAwait =>
      match r with
      | HostReply.ok => CallOutcome.promiseResolved
      | HostReply.fail => CallOutcome.promiseRejected
  | CallShape.oneWaySend _ => CallOutcome.immediateReturn
  | CallShape.syncLocal => CallOutcome.immediateReturn

/-! ## Theorems -/

theorem maximizedAfter_snoc (l : List String) (e : String) :
    maximizedAfter (l ++ [e]) = stepMaximized (maximizedAfter l) e := by
  simp [maximizedAfter, List.foldl_append]

/-- C2: after any sequence of host-pushed events, `isMaximized()` returns
`false` when no maximize/unmaximize notification has arrived, `true` when the
most recent such notification was `maximize`, `false` when it was `unmaximize`;
and an event on any other channel leaves the returned value unchanged. -/
theorem maximized_flag_tracks_last_notification (events : List String) (e : String) :
    maximizedAfter events
      = (((events.filter relevantMaximizeEvent).getLast?).map
          (fun x => x == "maximize")).getD false ∧
    maximizedAfter (events ++ [e])
      = (if relevantMaximizeEvent e then e == "maximize" else maximizedAfter events) := by
  constructor
  · induction events using List.reverseRecOn with
    | nil => rfl
    | append_singleton l x ih =>
        rw [maximizedAfter_snoc]
        by_cases h1 : x = "maximize"
        · subst h1
          simp [List.filter_append, relevantMaximizeEvent, stepMaximized]
        · by_cases h2 : x = "unmaximize"
          · subst h2
            simp [List.filter_append, relevantMaximizeEvent, stepMaximized]
          · rw [ih]
            simp [List.filter_append, relevantMaximizeEvent, stepMaximized, h1, h2]
  · rw [maximizedAfter_snoc]
    by_cases h1 : e = "maximize"
    · simp [stepMaximized, relevantMaximizeEvent, h1]
    · by_cases h2 : e = "unmaximize"
      · simp [stepMaximized, relevantMaximizeEvent, h1, h2]
      · simp [stepMaximized, relevantMaximizeEvent, h1, h2]

/-- C3: an attach appends its registration; the detach closure it returns
removes exactly that registration, leaving every other registration for the
event name in place, and invoking the same closure again is a no-op. The
hypotheses state that the attach's handler reference occurs in no other
registration, which the context bridge guarantees: it wraps the function a
renderer passes on every crossing, so distinct attach calls always hand the
preload script distinct references (the source notes this at lines 211-215). -/
theorem event_relay_detach_removes_exactly_own
    (e : String) (h : Handler) (s0 l1 l2 : IpcRegistry)
    (h1 : (e, h) ∉ l1) (h2 : (e, h) ∉ l2) :
    (desktopAddIpcEventListener e h s0).1 = s0 ++ [(e, h)] ∧
    (desktopAddIpcEventListener e h s0).2 (l1 ++ (e, h) :: l2) = l1 ++ l2 ∧
    (desktopAddIpcEventListener e h s0).2 (l1 ++ l2) = l1 ++ l2 := by
  have h2r : (e, h) ∉ l2.reverse := by simpa using h2
  refine ⟨rfl, ?_, ?_⟩
  · show ipcOff (l1 ++ (e, h) :: l2) e h = l1 ++ l2
    rw [ipcOff, List.reverse_append, List.reverse_cons,
      List.erase_append_left _ (by simp), List.erase_append_right _ h2r,
      List.erase_cons_head, List.reverse_append]
    simp
  · show ipcOff (l1 ++ l2) e h = l1 ++ l2
    rw [ipcOff, List.erase_of_not_mem (by simp [h1, h2]), List.reverse_reverse]

theorem event_relay_detach_removes_exactly_own_witness :
    (desktopAddIpcEventListener "focus" 1 []).1 = [] ++ [("focus", 1)] ∧
    (desktopAddIpcEventListener "focus" 1 []).2
        ([("focus", 0)] ++ ("focus", 1) :: [("focus", 2)])
      = [("focus", 0)] ++ [("focus", 2)] ∧
    (desktopAddIpcEventListener "focus" 1 []).2 ([("focus", 0)] ++ [("focus", 2)])
      = [("focus", 0)] ++ [("focus", 2)] :=
  event_relay_detach_removes_exactly_own "focus" 1 [] [("focus", 0)] [("focus", 2)]
    (by decide) (by decide)

/-- C4: at attach, with the sentinel absent `getDeepLinks()` returns the list
decoded from the launch arguments (empty when decoding yields nothing); with
the sentinel present it returns the empty list and the sentinel is cleared; and
a repeated call returns the same list as the call before it. -/
theorem deep_link_intake_at_attach (args : LaunchArgs) (p : PreloadInstance) :
    (getDeepLinksCall (attachPreload false args)).1 = (decodeRendererArg args).getD [] ∧
    (getDeepLinksCall (attachPreload true args)).1 = [] ∧
    (attachPreload true args).cookieSentinelAfterAttach = false ∧
    (attachPreload false args).cookieSentinelAfterAttach = false ∧
    (getDeepLinksCall (getDeepLinksCall p).2).1 = (getDeepLinksCall p).1 :=
  ⟨rfl, rfl, rfl, rfl, rfl⟩

/-- C5: `resetDeepLinks()` sets the sentinel cookie; the attach following the
forced reload therefore returns the empty deep-link list — whatever the launch
arguments still encode — and clears the sentinel again, so a reset cycle never
redelivers the previously captured links. -/
theorem deep_link_reset_cycle_empties_delivery (args : LaunchArgs) :
    resetDeepLinksSentinel = true ∧
    (getDeepLinksCall (reloadAfterReset args)).1 = [] ∧
    (reloadAfterReset args).cookieSentinelAfterAttach = false :=
  ⟨rfl, rfl, rfl⟩

/-- C9: the attach operation of the desktop bridge and the attach operation of
the menu bridge are the same function: same registration effect and same
returned detach behaviour. -/
theorem desktop_menu_attach_extensionally_equal :
    desktopAddIpcEventListener = menuAddIpcEventListener :=
  rfl

/-- C10: the outgoing window commands leave the cached maximized flag
unchanged; only receipt of a host-pushed `maximize` or `unmaximize`
notification mutates it. -/
theorem window_commands_preserve_maximized_flag (s : WindowState) (e : String) :
    isMaximizedRead (minimizeWindowCmd s) = isMaximizedRead s ∧
    isMaximizedRead (maximizeWindowCmd s) = isMaximizedRead s ∧
    isMaximizedRead (unmaximizeWindowCmd s) = isMaximizedRead s ∧
    isMaximizedRead (handleTitleBarDoubleClickCmd s) = isMaximizedRead s ∧
    isMaximizedRead (onHostEvent s "maximize") = true ∧
    isMaximizedRead (onHostEvent s "unmaximize") = false ∧
    (e ≠ "maximize" → e ≠ "unmaximize" →
      isMaximizedRead (onHostEvent s e) = isMaximizedRead s) := by
  refine ⟨rfl, rfl, rfl, rfl, by simp [isMaximizedRead, onHostEvent, stepMaximized],
    by simp [isMaximizedRead, onHostEvent, stepMaximized], fun h1 h2 => ?_⟩
  simp [isMaximizedRead, onHostEvent, stepMaximized, h1, h2]

/-- C1: the single-flight property fails on the code. With two first-time
callers interleaved at the awaited `getHomePath` round trip — A runs the
presence check, B runs the presence check, A's reply arrives, B's reply
arrives — both callers pass the `if (!extensionHandler)` check, two
`getHomePath` round trips are issued, two `ExtensionsHandler` instances are
constructed, and the two callers resolve to distinct instances (the second
construction overwrites the first in the cached slot). -/
theorem extension_handler_race_duplicates_construction :
    (getExtensionHandlerStart initialExtState).1 = StartResult.awaitingHomePath ∧
    (getExtensionHandlerStart (getExtensionHandlerStart initialExtState).2).1
      = StartResult.awaitingHomePath ∧
    (raceTwoCalls "/home/user").1
      = Except.ok { userExtensionsDir := "/home/user/.lichtblick-suite/extensions"
                    ctorId := 0 } ∧
    (raceTwoCalls "/home/user").2.1
      = Except.ok { userExtensionsDir := "/home/user/.lichtblick-suite/extensions"
                    ctorId := 1 } ∧
    ({ userExtensionsDir := "/home/user/.lichtblick-suite/extensions", ctorId := 0 }
        : ExtensionsHandler)
      ≠ { userExtensionsDir := "/home/user/.lichtblick-suite/extensions", ctorId := 1 } ∧
    (raceTwoCalls "/home/user").2.2.homePathRoundTrips = 2 ∧
    (raceTwoCalls "/home/user").2.2.constructions = 2 ∧
    (raceTwoCalls "/home/user").2.2.extensionHandler
      = some { userExtensionsDir := "/home/user/.lichtblick-suite/extensions"
               ctorId := 1 } := by
  refine ⟨rfl, rfl, rfl, rfl, ?_, rfl, rfl, rfl⟩
  decide

/-- C6, as stated, is false: `minimizeWindow()` performs a one-way
`ipcRenderer.send("minimizeWindow")` and returns immediately; it returns no
promise and has no rejection path when the host round trip fails. -/
theorem window_command_no_promise_counterexample :
    desktopOpShape DesktopOp.minimizeWindow = CallShape.oneWaySend "minimizeWindow" ∧
    runDesktopOp DesktopOp.minimizeWindow HostReply.fail = CallOutcome.immediateReturn ∧
    runDesktopOp DesktopOp.minimizeWindow HostReply.fail ≠ CallOutcome.promiseRejected := by
  refine ⟨rfl, rfl, ?_⟩
  decide

/-- C6 amended: the desktop-bridge operations that await a host round trip
(`setRepresentedFilename`, the colour-scheme, language, CLI-flag and layout
operations, and the four extension operations) are asynchronous and their
promise rejects exactly when the round trip fails; the window commands
minimize/maximize/unmaximize/close/reload and the title-bar double click are
one-way sends on their fixed channels, returning immediately with no rejection
path, and the informational reads return immediately. -/
theorem bridge_call_shapes (op : DesktopOp) (r : HostReply) :
    (desktopOpShape op = CallShape.asyncAwait →
      runDesktopOp op HostReply.fail = CallOutcome.promiseRejected ∧
      runDesktopOp op HostReply.ok = CallOutcome.promiseResolved) ∧
    (desktopOpShape op ≠ CallShape.asyncAwait →
      runDesktopOp op r = CallOutcome.immediateReturn) ∧
    desktopOpShape DesktopOp.minimizeWindow = CallShape.oneWaySend "minimizeWindow" ∧
    desktopOpShape DesktopOp.maximizeWindow = CallShape.oneWaySend "maximizeWindow" ∧
    desktopOpShape DesktopOp.unmaximizeWindow = CallShape.oneWaySend "unmaximizeWindow" ∧
    desktopOpShape DesktopOp.closeWindow = CallShape.oneWaySend "closeWindow" ∧
    desktopOpShape DesktopOp.reloadWindow = CallShape.oneWaySend "reloadMainWindow" ∧
    desktopOpShape DesktopOp.handleTitleBarDoubleClick
      = CallShape.oneWaySend "titleBarDoubleClicked" ∧
    desktopOpShape DesktopOp.setRepresentedFilename = CallShape.asyncAwait ∧
    desktopOpShape DesktopOp.getCLIFlags = CallShape.asyncAwait ∧
    desktopOpShape DesktopOp.getExtensions = CallShape.asyncAwait ∧
    desktopOpShape DesktopOp.getDeepLinksOp = CallShape.syncLocal ∧
    desktopOpShape DesktopOp.isMaximizedOp = CallShape.syncLocal := by
  cases op <;> cases r <;> simp [desktopOpShape, runDesktopOp]

/-- C7: when the awaited `getHomePath` reply is a rejection, the in-flight
call rejects with that error, the cached slot stays exactly as empty as it
was, no construction happens, and a later call constructs the handler
afresh. -/
theorem extension_handler_failure_leaves_slot_empty
    (s : ExtState) (e : String) (home : String) (hs : s.extensionHandler = none) :
    (getExtensionHandlerCall s (Except.error e)).1 = Except.error e ∧
    ((getExtensionHandlerCall s (Except.error e)).2).extensionHandler = none ∧
    ((getExtensionHandlerCall s (Except.error e)).2).constructions = s.constructions ∧
    (getExtensionHandlerCall ((getExtensionHandlerCall s (Except.error e)).2)
        (Except.ok home)).1
      = Except.ok { userExtensionsDir := pathJoin [home, ".lichtblick-suite", "extensions"]
                    ctorId := s.constructions } := by
  simp [getExtensionHandlerCall, getExtensionHandlerStart, getExtensionHandlerResume, hs]

theorem extension_handler_failure_leaves_slot_empty_witness :
    (getExtensionHandlerCall initialExtState (Except.error "EACCES")).1
      = Except.error "EACCES" ∧
    ((getExtensionHandlerCall initialExtState (Except.error "EACCES")).2).extensionHandler
      = none ∧
    ((getExtensionHandlerCall initialExtState (Except.error "EACCES")).2).constructions
      = initialExtState.constructions ∧
    (getExtensionHandlerCall
        ((getExtensionHandlerCall initialExtState (Except.error "EACCES")).2)
        (Except.ok "/home/user")).1
      = Except.ok { userExtensionsDir :=
                      pathJoin ["/home/user", ".lichtblick-suite", "extensions"]
                    ctorId := initialExtState.constructions } :=
  extension_handler_failure_leaves_slot_empty initialExtState "EACCES" "/home/user" rfl

/-- C8: an entry of `getNetworkInterfaces()` exists exactly for each address
entry of each interface name bound to a present address list — so no entry
ever arises from a name bound to `undefined` — and each entry copies the
address fields and carries the host-reported CIDR string when present and
`undefined` (a present `cidr` key holding no string) when the host reported
`null`. -/
theorem network_interfaces_characterization
    (ifaces : List (String × Option (List InterfaceInfo))) (o : NetworkInterface) :
    o ∈ getNetworkInterfaces ifaces ↔
      ∃ infos info, (o.name, some infos) ∈ ifaces ∧ info ∈ infos ∧
        o.family = info.family ∧ o.address = info.address ∧
        o.netmask = info.netmask ∧ o.cidr = nullToUndefined info.cidr := by
  constructor
  · intro hmem
    rw [getNetworkInterfaces, List.mem_flatMap] at hmem
    obtain ⟨⟨n, oinfos⟩, hp, ho⟩ := hmem
    cases oinfos with
    | none => simp [interfaceEntries] at ho
    | some infos =>
        simp only [interfaceEntries, List.mem_map] at ho
        obtain ⟨info, hin, rfl⟩ := ho
        exact ⟨infos, info, hp, hin, rfl, rfl, rfl, rfl⟩
  · rintro ⟨infos, info, hmem, hin, hf, ha, hn, hc⟩
    rw [getNetworkInterfaces, List.mem_flatMap]
    refine ⟨(o.name, some infos), hmem, ?_⟩
    simp only [interfaceEntries, List.mem_map]
    refine ⟨info, hin, ?_⟩
    cases o
    simp_all

end Preload
